import Mathlib

/-!
Verification of the Backend_CMS authentication, authorization and list/aggregation
layer, as a shallow embedding of the JavaScript source.

Embedded source files:
* `src/unnamed/part_001` — the auth router (`POST /register`, `POST /login`, ...).
* `src/unnamed/part_002` — `authMiddleware`, `adminMiddleware`, `superAdminMiddleware`,
  `optionalAuthMiddleware`.
* `src/routes/news.js` — the admin news list endpoint (`GET /`).
* `src/unnamed/part_000` — the feedback list endpoint (`GET /api/feedback`) and its
  rating-distribution aggregation.
* `src/models/Feedback.js` — the feedback schema (rating constrained to 1..5).

The `User` mongoose model (referenced as `../models/User` throughout) is not part of
the provided sources; its lockout helpers (`isLocked`, `incLoginAttempts`,
`resetLoginAttempts`, `comparePassword`) are modelled from the specification, §3 and
§4.2, and are marked as such below.

Timestamps are modelled as natural numbers (milliseconds); bcrypt hashing is
abstracted so that a stored credential matches exactly one candidate password.
-/

namespace BackendCMS

/-- Account role, per the spec data model plus the middleware's synthetic guest role. -/
inductive Role where
  | user
  | admin
  | super_admin
  | guest
deriving DecidableEq

/-- Account status, per the spec data model (`active`, `inactive`, `suspended`). -/
inductive Status where
  | active
  | inactive
  | suspended
deriving DecidableEq

/-- Persisted user record. Fields are the ones the embedded routes touch.
The `password` field stands for the stored credential; `comparePassword` below
abstracts the bcrypt comparison. -/
structure UserRec where
  id : Nat
  name : String
  email : String
  password : String
  role : Role
  status : Status
  loginAttempts : Nat
  lockUntil : Option Nat
  lastLogin : Option Nat
deriving DecidableEq

/-- Modelled from the spec: the `User` model is not in the provided sources. Spec §3
states the invariant "`isLocked` is true iff `lockUntil` is set and in the future". -/
def isLocked (now : Nat) (u : UserRec) : Bool :=
  match u.lockUntil with
  | some t => decide (now < t)
  | none => false

/-- Lockout threshold: 5 failed attempts, spec §4.2. -/
def lockThreshold : Nat := 5

/-- Lock duration: 2 hours, spec §4.2, in milliseconds. -/
def lockDurationMs : Nat := 2 * 60 * 60 * 1000

/-- Modelled from the spec: `User.incLoginAttempts` is not in the provided sources.
Spec §4.2: on failed password verification increment `failedAttempts`; if the new
count reaches the threshold (5), transition to `Locked` with
`lockUntil = now + lockDuration`; when `lockUntil` has elapsed the account is treated
as `Unlocked` on the next attempt (lazy transition), so an elapsed lock restarts the
counter at 1. -/
def incLoginAttempts (now : Nat) (u : UserRec) : UserRec :=
  match u.lockUntil with
  | some t =>
    if t ≤ now then
      { u with loginAttempts := 1, lockUntil := none }
    else
      { u with loginAttempts := u.loginAttempts + 1 }
  | none =>
    if lockThreshold ≤ u.loginAttempts + 1 then
      { u with loginAttempts := u.loginAttempts + 1, lockUntil := some (now + lockDurationMs) }
    else
      { u with loginAttempts := u.loginAttempts + 1 }

/-- Modelled from the spec: `User.resetLoginAttempts` is not in the provided sources.
Spec §4.2: on successful password verification reset `failedAttempts` to 0 and clear
`lockUntil`. -/
def resetLoginAttempts (u : UserRec) : UserRec :=
  { u with loginAttempts := 0, lockUntil := none }

/-- Modelled from the spec: `User.comparePassword` (a bcrypt comparison) is not in
the provided sources. The hash is abstracted away: the stored credential matches
exactly the original password string. -/
def comparePassword (u : UserRec) (candidate : String) : Bool :=
  u.password == candidate

/-- Outcome of the `POST /api/auth/login` handler: the HTTP status, the response
message, and the account state as saved after the attempt (`none` when no account
matched the email). -/
structure LoginResult where
  status : Nat
  message : String
  postUser : Option UserRec
deriving DecidableEq

/-- The `POST /api/auth/login` handler of `src/unnamed/part_001` lines 86-174, after
body validation, applied to the user record found for the normalized email (`found`).
Checks run in source order: user exists, role is admin/super_admin, not locked,
active, password matches. On a failed password the attempt counter is bumped via
`incLoginAttempts`; on success the counter is reset and `lastLogin` updated. -/
def loginHandler (now : Nat) (candidate : String) (found : Option UserRec) : LoginResult :=
  match found with
  | none => { status := 401, message := "Invalid credentials", postUser := none }
  | some u =>
    if ¬ (u.role = Role.admin ∨ u.role = Role.super_admin) then
      { status := 403, message := "Access denied. Admin privileges required.", postUser := some u }
    else if isLocked now u then
      { status := 423
        message := "Account is temporarily locked due to too many failed login attempts."
        postUser := some u }
    else if u.status ≠ Status.active then
      { status := 403, message := "Your account is not active. Please contact support.", postUser := some u }
    else if ¬ comparePassword u candidate then
      { status := 401, message := "Invalid credentials", postUser := some (incLoginAttempts now u) }
    else
      { status := 200, message := "Login successful"
        postUser := some { resetLoginAttempts u with lastLogin := some now } }

/-- The account state left behind by one login attempt (identity when no account
matched). Used to iterate failed attempts. -/
def loginStep (now : Nat) (candidate : String) (u : UserRec) : UserRec :=
  match (loginHandler now candidate (some u)).postUser with
  | some v => v
  | none => u

/-- Account state after `n` consecutive login attempts with password `candidate`,
all at time `now`. -/
def afterAttempts (now : Nat) (candidate : String) : Nat → UserRec → UserRec
  | 0, u => u
  | n + 1, u => afterAttempts now candidate n (loginStep now candidate u)

/-- Request body of `POST /api/auth/register` (`role` is optional and, per the
validator, restricted to `user`/`admin` when present). -/
structure RegisterBody where
  name : String
  email : String
  password : String
  phone : Option String
  role : Option Role
deriving DecidableEq

/-- The `validateRegister` chain of `src/unnamed/part_001` lines 27-32: name
nonempty, email well-formed (abstracted as the `emailOk` predicate), password at
least 6 characters, role (when given) one of `user`, `admin`. -/
def validateRegister (emailOk : String → Bool) (b : RegisterBody) : Bool :=
  (!b.name.isEmpty) && emailOk b.email && decide (6 ≤ b.password.length) &&
    (match b.role with
     | none => true
     | some r => r == Role.user || r == Role.admin)

/-- Field set passed to `new User({ name, email, password, phone, role })` by the
register handler (schema defaults for the remaining fields live in the missing
`User` model). -/
structure NewUserDoc where
  name : String
  email : String
  password : String
  phone : Option String
  role : Role
deriving DecidableEq

/-- Outcome of the `POST /api/auth/register` handler. -/
inductive RegisterResult where
  | failed (status : Nat) (message : String)
  | created (status : Nat) (doc : NewUserDoc)
deriving DecidableEq

/-- The `POST /api/auth/register` handler of `src/unnamed/part_001` lines 38-81:
validation, duplicate-email check (`emailTaken`), then creation with the
destructuring default `role = "admin"` of line 51. The route is mounted without any
auth middleware, so no identity context appears among the inputs. -/
def registerHandler (emailOk : String → Bool) (emailTaken : Bool) (b : RegisterBody) :
    RegisterResult :=
  if ¬ validateRegister emailOk b then
    .failed 400 "Validation failed"
  else if emailTaken then
    .failed 409 "User already exists with this email"
  else
    .created 201
      { name := b.name, email := b.email, password := b.password, phone := b.phone
        role := b.role.getD Role.admin }

/-- Payload carried by a verified bearer token (`jwt.verify` result): the subject
id, the role signed into the token, and the guest marker. -/
structure TokenPayload where
  userId : Nat
  role : Role
  isGuest : Bool
deriving DecidableEq

/-- Result of `jwt.verify`: success with a payload, a signature/format failure
(`JsonWebTokenError`), or an expired token (`TokenExpiredError`). -/
inductive VerifyResult where
  | ok (payload : TokenPayload)
  | invalidSig
  | expired
deriving DecidableEq

/-- Identity context attached to the request (`req.user`). The guest branch sets
only `userId` and `role`; `optionalAuthMiddleware` omits `status`. -/
structure IdentityContext where
  userId : Nat
  email : Option String
  name : Option String
  role : Role
  status : Option Status
deriving DecidableEq

/-- Outcome of a middleware: pass the request on (with the current `req.user`),
or answer immediately with a status and message. -/
inductive MwResult where
  | next (ident : Option IdentityContext)
  | respond (status : Nat) (message : String)
deriving DecidableEq

/-- Bearer-token extraction of `src/unnamed/part_002` lines 9-12: the
`Authorization` header must start with the bearer marker
(`authHeader.startsWith("Bearer ")`, embedded on the character list), whose 7
characters are then stripped (`substring(7)`). -/
def extractToken (authHeader : Option String) : Option String :=
  match authHeader with
  | some h => if "Bearer ".data.isPrefixOf h.data then some (h.drop 7) else none
  | none => none

/-- Context attached by the guest branch of `authMiddleware` (lines 23-30):
`{ userId, role: guest }`, no store fields. -/
def guestContext (p : TokenPayload) : IdentityContext :=
  { userId := p.userId, email := none, name := none, role := Role.guest, status := none }

/-- Context attached by `authMiddleware` for a regular user (lines 54-61). -/
def userContext (u : UserRec) : IdentityContext :=
  { userId := u.id, email := some u.email, name := some u.name, role := u.role
    status := some u.status }

/-- The `authMiddleware` of `src/unnamed/part_002` lines 7-87. Token verification
and the store lookup are passed in as functions (`verify`, `findById`); `now` feeds
the lock check. The thrown `JsonWebTokenError` / `TokenExpiredError` cases map to
the corresponding catch branches. -/
def authMiddleware (verify : String → VerifyResult) (findById : Nat → Option UserRec)
    (now : Nat) (authHeader : Option String) : MwResult :=
  match extractToken authHeader with
  | none => .respond 401 "Access denied. No token provided."
  | some tok =>
    match verify tok with
    | .invalidSig => .respond 401 "Invalid token."
    | .expired => .respond 401 "Token expired. Please login again."
    | .ok payload =>
      if payload.isGuest then
        .next (some (guestContext payload))
      else
        match findById payload.userId with
        | none => .respond 401 "Token is not valid. User not found."
        | some u =>
          if u.status ≠ Status.active then
            .respond 403 "Account is not active. Please contact support."
          else if isLocked now u then
            .respond 423 "Account is temporarily locked."
          else
            .next (some (userContext u))

/-- The `adminMiddleware` of `src/unnamed/part_002` lines 90-95: pass when
`req.user` is present with role `admin` or `super_admin`, otherwise 403. -/
def adminMiddleware (ident : Option IdentityContext) : MwResult :=
  match ident with
  | some c =>
    if c.role = Role.admin ∨ c.role = Role.super_admin then .next (some c)
    else .respond 403 "Access denied. Admin privileges required."
  | none => .respond 403 "Access denied. Admin privileges required."

/-- The `superAdminMiddleware` of `src/unnamed/part_002` lines 98-103. -/
def superAdminMiddleware (ident : Option IdentityContext) : MwResult :=
  match ident with
  | some c =>
    if c.role = Role.super_admin then .next (some c)
    else .respond 403 "Access denied. Super admin privileges required."
  | none => .respond 403 "Access denied. Super admin privileges required."

/-- Context attached by `optionalAuthMiddleware` (lines 116-121): no `status`
field. -/
def optionalContext (u : UserRec) : IdentityContext :=
  { userId := u.id, email := some u.email, name := some u.name, role := u.role
    status := none }

/-- The `optionalAuthMiddleware` of `src/unnamed/part_002` lines 105-129: every
path calls `next()`; a context is attached only when the token verifies, the user
exists, is active, and is not locked. Verification failures (the catch block) also
proceed without a user. Unlike `authMiddleware`, there is no guest branch: the
decoded `userId` is always looked up. -/
def optionalAuthMiddleware (verify : String → VerifyResult)
    (findById : Nat → Option UserRec) (now : Nat) (authHeader : Option String) :
    MwResult :=
  match extractToken authHeader with
  | none => .next none
  | some tok =>
    match verify tok with
    | .ok payload =>
      match findById payload.userId with
      | some u =>
        if u.status = Status.active ∧ isLocked now u = false then
          .next (some (optionalContext u))
        else
          .next none
      | none => .next none
    | .invalidSig => .next none
    | .expired => .next none

/-- Pagination metadata of the list responses:
`{ currentPage, totalPages, total<Kind> }`. -/
structure PaginationInfo where
  currentPage : Nat
  totalPages : Nat
  totalCount : Nat
deriving DecidableEq

/-- Embedding of `Math.ceil(total / limit)` on nonnegative integers with
`limit > 0` (for `limit = 0` the JS expression is `Infinity`; that case is outside
every use in this development). -/
def jsCeilDiv (total limit : Nat) : Nat :=
  (total + limit - 1) / limit

/-- Embedding of `const sortObj = { [sort]: order === "desc" ? -1 : 1 }`: the sort
key is built from the raw query value, whatever it names. -/
def sortSpec (sortField order : String) : String × Int :=
  (sortField, if order = "desc" then -1 else 1)

/-- Response of the news list handler. Documents are represented by opaque ids;
`articles` is the returned page, `sortKey` the sort object handed to the store. -/
structure NewsListResponse where
  status : Nat
  articles : List Nat
  sortKey : String × Int
  pagination : PaginationInfo
deriving DecidableEq

/-- The `GET /api/news` handler of `src/routes/news.js` lines 33-81. `matching`
stands for the store's filtered and sorted document sequence for the query;
the handler applies the query-string defaults (`page = 1`, `limit = 20`,
`sort = "createdAt"`, `order = "desc"`), computes `skip = (page-1)*limit`, pages
with `skip`/`limit`, and reports `totalPages = Math.ceil(total / limit)`. No
validator runs on this route: any `page`, `limit` or `sort` value is accepted. -/
def newsListHandler (matching : List Nat) (pageQ limitQ : Option Nat)
    (sortQ orderQ : Option String) : NewsListResponse :=
  let page := pageQ.getD 1
  let limit := limitQ.getD 20
  let skip := (page - 1) * limit
  { status := 200
    articles := (matching.drop skip).take limit
    sortKey := sortSpec (sortQ.getD "createdAt") (orderQ.getD "desc")
    pagination :=
      { currentPage := page
        totalPages := jsCeilDiv matching.length limit
        totalCount := matching.length } }

/-- Embedding of the `express-validator` check
`query(name).optional().isInt({ min, max })`: absent passes, present must be an
integer within the bounds. -/
def intRangeOk (lo hi : Int) (v : Option Int) : Bool :=
  match v with
  | none => true
  | some n => lo ≤ n && n ≤ hi

/-- Embedding of `query(name).optional().isInt({ min })` (no upper bound). -/
def intMinOk (lo : Int) (v : Option Int) : Bool :=
  match v with
  | none => true
  | some n => lo ≤ n

/-- Embedding of `query(name).optional().isIn(allowed)`. -/
def inListOk (allowed : List String) (v : Option String) : Bool :=
  match v with
  | none => true
  | some s => allowed.contains s

/-- The validator chain of `GET /api/feedback` (`src/unnamed/part_000` lines
570-575): `page ≥ 1`, `1 ≤ limit ≤ 100`, `1 ≤ rating ≤ 5`,
`sort ∈ {createdAt, rating, feedback}`, `order ∈ {asc, desc}`. -/
def feedbackListValid (pageQ limitQ ratingQ : Option Int)
    (sortQ orderQ : Option String) : Bool :=
  intMinOk 1 pageQ && intRangeOk 1 100 limitQ && intRangeOk 1 5 ratingQ &&
    inListOk ["createdAt", "rating", "feedback"] sortQ &&
    inListOk ["asc", "desc"] orderQ

/-- Initial dense rating histogram
`let ratingDistribution = { 1: 0, 2: 0, 3: 0, 4: 0, 5: 0 }`. -/
def initialRatingDist : List (Nat × Nat) := [(1, 0), (2, 0), (3, 0), (4, 0), (5, 0)]

/-- One step of `ratingDistribution[rating]++`: bump the bucket whose key equals the
rating. Ratings outside the keys leave the histogram unchanged, matching the JS on
every schema-valid rating (the `src/models/Feedback.js` schema bounds `rating` to
1..5). -/
def bumpRating (d : List (Nat × Nat)) (r : Nat) : List (Nat × Nat) :=
  d.map fun p => if p.1 = r then (p.1, p.2 + 1) else p

/-- One iteration of the `forEach` body
`rating => { if (rating) ratingDistribution[rating]++ }`: falsy ratings are
skipped, the rest bump their bucket. -/
def ratingStep (d : List (Nat × Nat)) (r : Nat) : List (Nat × Nat) :=
  if r ≠ 0 then bumpRating d r else d

/-- The rating-histogram aggregation shared by `GET /api/feedback` (lines 624-630)
and `GET /api/feedback/stats/summary` (lines 754-760): fold the pushed ratings over
the dense zero histogram, skipping falsy values. -/
def ratingDistribution (ratings : List Nat) : List (Nat × Nat) :=
  ratings.foldl ratingStep initialRatingDist

/-- Outcome of the `GET /api/feedback` handler: a validation rejection or the data
envelope (page of feedbacks, pagination block, rating histogram of the whole
collection). -/
inductive FeedbackListResult where
  | validationFailed (status : Nat) (message : String)
  | ok (status : Nat) (feedbacks : List Nat) (pagination : PaginationInfo)
      (ratingDist : List (Nat × Nat))
deriving DecidableEq

/-- The `GET /api/feedback` handler (`src/unnamed/part_000` lines 570-651):
validator chain first (400 on failure), then the same skip/limit/`Math.ceil`
pipeline as the news route over the filtered, sorted sequence `matching`, together
with the rating histogram over `allRatings` — the ratings of the whole collection,
since the stats aggregation carries no `$match` stage. -/
def feedbackListHandler (matching : List Nat) (allRatings : List Nat)
    (pageQ limitQ ratingQ : Option Int) (sortQ orderQ : Option String) :
    FeedbackListResult :=
  if ¬ feedbackListValid pageQ limitQ ratingQ sortQ orderQ then
    .validationFailed 400 "Validation failed"
  else
    let page := (pageQ.getD 1).toNat
    let limit := (limitQ.getD 20).toNat
    let skip := (page - 1) * limit
    .ok 200 ((matching.drop skip).take limit)
      { currentPage := page
        totalPages := jsCeilDiv matching.length limit
        totalCount := matching.length }
      (ratingDistribution allRatings)

/-! Concrete sample data for witnesses and counterexamples. -/

/-- Sample active admin account with no failed attempts. -/
def sampleAdmin : UserRec :=
  { id := 1, name := "Alice", email := "alice@example.com", password := "secret1"
    role := Role.admin, status := Status.active, loginAttempts := 0
    lockUntil := none, lastLogin := none }

/-- Sample admin account currently locked (lock expires at time 1000). -/
def lockedAdmin : UserRec :=
  { sampleAdmin with loginAttempts := 5, lockUntil := some 1000 }

/-- Sample non-admin account with a lock timestamp in the future. -/
def lockedRegularUser : UserRec :=
  { sampleAdmin with id := 2, role := Role.user, lockUntil := some 1000 }

/-- Token verifier that always reports a signature failure. -/
def vInvalid : String → VerifyResult := fun _ => .invalidSig

/-- Token verifier that always reports an expired token. -/
def vExpired : String → VerifyResult := fun _ => .expired

/-- Token verifier that accepts every token as belonging to user 7 (not a guest). -/
def vOkUser7 : String → VerifyResult :=
  fun _ => .ok { userId := 7, role := Role.admin, isGuest := false }

/-- Token verifier that accepts every token as a guest token for subject 3. -/
def vGuest : String → VerifyResult :=
  fun _ => .ok { userId := 3, role := Role.user, isGuest := true }

/-- Store with no users. -/
def emptyStore : Nat → Option UserRec := fun _ => none

/-- Sample guest identity context as attached by the guest branch. -/
def guestSampleCtx : IdentityContext :=
  { userId := 9, email := none, name := none, role := Role.guest, status := none }

/-! Theorems. -/

/-- Claim C7: the role gates are pure predicates over the attached identity
context's role (their only input besides the context is nothing — no store access
appears in their types): `adminMiddleware` passes exactly when the role is `admin`
or `super_admin`, `superAdminMiddleware` exactly when it is `super_admin`, and both
answer 403 otherwise. -/
theorem roleGate_pure_characterization (c : IdentityContext) :
    (adminMiddleware (some c) = .next (some c) ↔
      (c.role = Role.admin ∨ c.role = Role.super_admin)) ∧
    (¬ (c.role = Role.admin ∨ c.role = Role.super_admin) →
      adminMiddleware (some c) = .respond 403 "Access denied. Admin privileges required.") ∧
    (superAdminMiddleware (some c) = .next (some c) ↔ c.role = Role.super_admin) ∧
    (c.role ≠ Role.super_admin →
      superAdminMiddleware (some c) =
        .respond 403 "Access denied. Super admin privileges required.") := by
  refine ⟨?_, ?_, ?_, ?_⟩
  · by_cases h : c.role = Role.admin ∨ c.role = Role.super_admin <;>
      simp [adminMiddleware, h]
  · intro h; simp [adminMiddleware, h]
  · by_cases h : c.role = Role.super_admin <;> simp [superAdminMiddleware, h]
  · intro h; simp [superAdminMiddleware, h]

/-- Witness for C7 at a concrete guest context: both gates reject with 403. -/
theorem roleGate_pure_characterization_witness :
    adminMiddleware (some guestSampleCtx) =
      .respond 403 "Access denied. Admin privileges required." ∧
    superAdminMiddleware (some guestSampleCtx) =
      .respond 403 "Access denied. Super admin privileges required." :=
  ⟨(roleGate_pure_characterization guestSampleCtx).2.1 (by decide),
   (roleGate_pure_characterization guestSampleCtx).2.2.2 (by decide)⟩

/-- Claim C8: a registration request that omits the optional `role` field creates
an account whose role is `admin` (and `admin` is not `user`); the register route is
public (the handler takes no identity context). -/
theorem register_defaults_role_admin (emailOk : String → Bool) (emailTaken : Bool)
    (b : RegisterBody) (hrole : b.role = none) (s : Nat) (d : NewUserDoc)
    (h : registerHandler emailOk emailTaken b = .created s d) :
    d.role = Role.admin ∧ Role.admin ≠ Role.user := by
  refine ⟨?_, by decide⟩
  simp only [registerHandler] at h
  split at h
  · simp at h
  · split at h
    · simp at h
    · injection h with h1 h2
      subst h2
      simp [hrole]

/-- Witness for C8: a concrete role-less registration creates an admin account. -/
theorem register_defaults_role_admin_witness :
    (⟨"Bob", "bob@example.com", "abcdef", none, Role.admin⟩ : NewUserDoc).role =
      Role.admin ∧ Role.admin ≠ Role.user :=
  register_defaults_role_admin (fun _ => true) false
    ⟨"Bob", "bob@example.com", "abcdef", none, none⟩ rfl 201
    ⟨"Bob", "bob@example.com", "abcdef", none, Role.admin⟩ (by decide)

/-- Claim C9: a validly verified guest token makes `authMiddleware` attach a
role-`guest` context and pass the request on, with a result independent of the user
store (no lookup), while both role gates reject that context with 403. -/
theorem guest_token_never_reaches_admin_routes (verify : String → VerifyResult)
    (f g : Nat → Option UserRec) (now : Nat) (hdr : Option String)
    (t : String) (p : TokenPayload)
    (h1 : extractToken hdr = some t) (h2 : verify t = .ok p)
    (h3 : p.isGuest = true) :
    authMiddleware verify f now hdr = .next (some (guestContext p)) ∧
    (guestContext p).role = Role.guest ∧
    authMiddleware verify f now hdr = authMiddleware verify g now hdr ∧
    adminMiddleware (some (guestContext p)) =
      .respond 403 "Access denied. Admin privileges required." ∧
    superAdminMiddleware (some (guestContext p)) =
      .respond 403 "Access denied. Super admin privileges required." := by
  refine ⟨?_, rfl, ?_, ?_, ?_⟩
  · simp [authMiddleware, h1, h2, h3]
  · simp [authMiddleware, h1, h2, h3]
  · simp [adminMiddleware, guestContext]
  · simp [superAdminMiddleware, guestContext]

/-- Witness for C9 at a concrete guest token. -/
theorem guest_token_never_reaches_admin_routes_witness :
    authMiddleware vGuest emptyStore 0 (some "Bearer g") =
      .next (some (guestContext ⟨3, Role.user, true⟩)) ∧
    (guestContext ⟨3, Role.user, true⟩).role = Role.guest ∧
    authMiddleware vGuest emptyStore 0 (some "Bearer g") =
      authMiddleware vGuest emptyStore 0 (some "Bearer g") ∧
    adminMiddleware (some (guestContext ⟨3, Role.user, true⟩)) =
      .respond 403 "Access denied. Admin privileges required." ∧
    superAdminMiddleware (some (guestContext ⟨3, Role.user, true⟩)) =
      .respond 403 "Access denied. Super admin privileges required." :=
  guest_token_never_reaches_admin_routes vGuest emptyStore emptyStore 0
    (some "Bearer g") "g" ⟨3, Role.user, true⟩ (by decide) rfl rfl

/-- Claim C10: `optionalAuthMiddleware` always passes the request on, whatever the
token or account state; it attaches a context exactly when the token verifies to an
existing, active, unlocked user. -/
theorem optionalAuth_never_fails (verify : String → VerifyResult)
    (findById : Nat → Option UserRec) (now : Nat) (hdr : Option String) :
    (∃ ident, optionalAuthMiddleware verify findById now hdr = .next ident) ∧
    (∀ c, optionalAuthMiddleware verify findById now hdr = .next (some c) →
      ∃ t p u, extractToken hdr = some t ∧ verify t = .ok p ∧
        findById p.userId = some u ∧ u.status = Status.active ∧
        isLocked now u = false ∧ c = optionalContext u) ∧
    (∀ t p u, extractToken hdr = some t → verify t = .ok p →
      findById p.userId = some u → u.status = Status.active →
      isLocked now u = false →
      optionalAuthMiddleware verify findById now hdr =
        .next (some (optionalContext u))) := by
  refine ⟨?_, ?_, ?_⟩
  · cases hE : extractToken hdr with
    | none => exact ⟨none, by simp [optionalAuthMiddleware, hE]⟩
    | some t =>
      cases hV : verify t with
      | ok p =>
        cases hF : findById p.userId with
        | none => exact ⟨none, by simp [optionalAuthMiddleware, hE, hV, hF]⟩
        | some u =>
          by_cases hA : u.status = Status.active ∧ isLocked now u = false
          · exact ⟨some (optionalContext u),
              by simp [optionalAuthMiddleware, hE, hV, hF, hA]⟩
          · exact ⟨none, by simp [optionalAuthMiddleware, hE, hV, hF, hA]⟩
      | invalidSig => exact ⟨none, by simp [optionalAuthMiddleware, hE, hV]⟩
      | expired => exact ⟨none, by simp [optionalAuthMiddleware, hE, hV]⟩
  · intro c h
    cases hE : extractToken hdr with
    | none => simp [optionalAuthMiddleware, hE] at h
    | some t =>
      cases hV : verify t with
      | ok p =>
        cases hF : findById p.userId with
        | none => simp [optionalAuthMiddleware, hE, hV, hF] at h
        | some u =>
          by_cases hA : u.status = Status.active ∧ isLocked now u = false
          · simp [optionalAuthMiddleware, hE, hV, hF, hA] at h
            exact ⟨t, p, u, rfl, hV, hF, hA.1, hA.2, h.symm⟩
          · simp [optionalAuthMiddleware, hE, hV, hF, hA] at h
      | invalidSig => simp [optionalAuthMiddleware, hE, hV] at h
      | expired => simp [optionalAuthMiddleware, hE, hV] at h
  · intro t p u hE hV hF hS hL
    simp [optionalAuthMiddleware, hE, hV, hF, hS, hL]

/-- Witness for C10: with an always-failing verifier and a missing header the
middleware still proceeds. -/
theorem optionalAuth_never_fails_witness :
    ∃ ident, optionalAuthMiddleware vInvalid emptyStore 0 (some "Bearer z") =
      .next ident :=
  (optionalAuth_never_fails vInvalid emptyStore 0 (some "Bearer z")).1

/-- Claim C2, counterexample: the four authentication failures all answer 401, but
the response bodies differ — an invalid token and a valid token whose user is
missing produce distinct responses, so the response does distinguish which failure
occurred (the user-not-found message reveals account non-existence). -/
theorem auth_failures_distinguishable :
    authMiddleware vInvalid emptyStore 0 none =
      .respond 401 "Access denied. No token provided." ∧
    authMiddleware vInvalid emptyStore 0 (some "Bearer x") =
      .respond 401 "Invalid token." ∧
    authMiddleware vExpired emptyStore 0 (some "Bearer x") =
      .respond 401 "Token expired. Please login again." ∧
    authMiddleware vOkUser7 emptyStore 0 (some "Bearer x") =
      .respond 401 "Token is not valid. User not found." ∧
    authMiddleware vInvalid emptyStore 0 (some "Bearer x") ≠
      authMiddleware vOkUser7 emptyStore 0 (some "Bearer x") := by
  refine ⟨by decide, by decide, by decide, by decide, by decide⟩

/-- Claim C2 as amended: each of the four authentication failures — no token,
invalid token, expired token, user not found — is surfaced with HTTP status 401
(the bodies, listed here, do differ per failure). -/
theorem auth_failures_all_401 (verify : String → VerifyResult)
    (findById : Nat → Option UserRec) (now : Nat) (hdr : Option String) :
    (extractToken hdr = none →
      authMiddleware verify findById now hdr =
        .respond 401 "Access denied. No token provided.") ∧
    (∀ t, extractToken hdr = some t → verify t = .invalidSig →
      authMiddleware verify findById now hdr = .respond 401 "Invalid token.") ∧
    (∀ t, extractToken hdr = some t → verify t = .expired →
      authMiddleware verify findById now hdr =
        .respond 401 "Token expired. Please login again.") ∧
    (∀ t p, extractToken hdr = some t → verify t = .ok p → p.isGuest = false →
      findById p.userId = none →
      authMiddleware verify findById now hdr =
        .respond 401 "Token is not valid. User not found.") := by
  refine ⟨?_, ?_, ?_, ?_⟩
  · intro h; simp [authMiddleware, h]
  · intro t hE hV; simp [authMiddleware, hE, hV]
  · intro t hE hV; simp [authMiddleware, hE, hV]
  · intro t p hE hV hG hF; simp [authMiddleware, hE, hV, hG, hF]

/-- Witness for the amended C2 at a concrete tokenless request. -/
theorem auth_failures_all_401_witness :
    authMiddleware vInvalid emptyStore 0 none =
      .respond 401 "Access denied. No token provided." :=
  (auth_failures_all_401 vInvalid emptyStore 0 none).1 rfl

/-- Claim C3, counterexample: the news list endpoint runs no validator, so a
request with `limit = 150` is accepted (status 200) and returns 150 items — more
than the supposed cap of 100. -/
theorem news_limit_uncapped :
    (newsListHandler (List.range 150) (some 1) (some 150) none none).status = 200 ∧
    (newsListHandler (List.range 150) (some 1) (some 150) none none).articles.length
      = 150 ∧
    100 <
      (newsListHandler (List.range 150) (some 1) (some 150) none none).articles.length
    := by
  have hlen :
      (newsListHandler (List.range 150) (some 1) (some 150) none none).articles.length
        = 150 := by
    simp [newsListHandler]
  exact ⟨rfl, hlen, by rw [hlen]; omega⟩

/-- Claim C3 as amended: only the feedback list endpoint validates `limit` as a
positive integer at most 100 — there a successful response never carries more than
100 items — while the news list endpoint applies whatever limit the query supplies,
bounding the page only by that raw value. -/
theorem limit_cap_feedback_only :
    (∀ n : Int, intRangeOk 1 100 (some n) = true ↔ 1 ≤ n ∧ n ≤ 100) ∧
    (∀ (m ar : List Nat) (pq lq rq : Option Int) (sq oq : Option String)
      (s : Nat) (fb : List Nat) (pag : PaginationInfo) (dist : List (Nat × Nat)),
      feedbackListHandler m ar pq lq rq sq oq = .ok s fb pag dist →
      fb.length ≤ 100) ∧
    (∀ (m : List Nat) (p l : Option Nat) (s o : Option String),
      (newsListHandler m p l s o).articles.length ≤ l.getD 20) := by
  refine ⟨?_, ?_, ?_⟩
  · intro n; simp [intRangeOk]
  · intro m ar pq lq rq sq oq s fb pag dist h
    simp only [feedbackListHandler] at h
    split at h
    · simp at h
    · rename_i hv
      rw [not_not] at hv
      injection h with h1 h2
      subst h2
      have hlim : (lq.getD 20).toNat ≤ 100 := by
        have : intRangeOk 1 100 lq = true := by
          simp only [feedbackListValid, Bool.and_eq_true] at hv
          exact hv.1.1.1.2
        cases lq with
        | none => simp
        | some n =>
          simp only [intRangeOk, Bool.and_eq_true, decide_eq_true_eq] at this
          simp only [Option.getD_some]
          omega
      calc ((m.drop (((pq.getD 1).toNat - 1) * (lq.getD 20).toNat)).take
              (lq.getD 20).toNat).length
          ≤ (lq.getD 20).toNat := by
            rw [List.length_take]; exact min_le_left _ _
        _ ≤ 100 := hlim
  · intro m p l s o
    simp only [newsListHandler]
    rw [List.length_take]
    exact min_le_left _ _

/-- Witness for the amended C3: a concrete feedback query with `limit = 2` returns
a page of at most 100 items. -/
theorem limit_cap_feedback_only_witness :
    ([0, 1] : List Nat).length ≤ 100 :=
  limit_cap_feedback_only.2.1 [0, 1, 2] [] (some 1) (some 2) none none none
    200 [0, 1] ⟨1, 2, 3⟩ (ratingDistribution []) (by decide)

/-- Claim C4, counterexample: the news list endpoint accepts an unrecognized sort
field: `sort = "bogus"` yields status 200 (not 400) and the sort key handed to the
store is built from the bogus field name. -/
theorem news_sort_unvalidated :
    (newsListHandler [] none none (some "bogus") none).status = 200 ∧
    (newsListHandler [] none none (some "bogus") none).sortKey = ("bogus", -1) ∧
    (newsListHandler [] none none (some "bogus") none).status ≠ 400 := by
  refine ⟨rfl, by decide, by decide⟩

/-- Claim C4 as amended: the feedback list endpoint rejects an unrecognized `sort`
field with a 400 validation failure (its accepted set being exactly `createdAt`,
`rating`, `feedback`), while the news list endpoint accepts any `sort` value,
silently building the sort key from it. -/
theorem sort_validation_feedback_only :
    (∀ (m ar : List Nat) (pq lq rq : Option Int) (oq : Option String) (s : String),
      (["createdAt", "rating", "feedback"].contains s) = false →
      feedbackListHandler m ar pq lq rq (some s) oq =
        .validationFailed 400 "Validation failed") ∧
    (∀ s : String, inListOk ["createdAt", "rating", "feedback"] (some s) = true ↔
      s = "createdAt" ∨ s = "rating" ∨ s = "feedback") ∧
    (∀ (m : List Nat) (p l : Option Nat) (s : String) (o : Option String),
      (newsListHandler m p l (some s) o).status = 200 ∧
      (newsListHandler m p l (some s) o).sortKey.1 = s) := by
  refine ⟨?_, ?_, ?_⟩
  · intro m ar pq lq rq oq s h
    have hs : inListOk ["createdAt", "rating", "feedback"] (some s) = false := h
    have hv : feedbackListValid pq lq rq (some s) oq = false := by
      simp only [feedbackListValid, hs, Bool.and_false, Bool.false_and]
    simp [feedbackListHandler, hv]
  · intro s
    simp [inListOk]
  · intro m p l s o
    exact ⟨rfl, rfl⟩

/-- Witness for the amended C4: the concrete field name `bogus` is rejected by the
feedback list endpoint. -/
theorem sort_validation_feedback_only_witness :
    feedbackListHandler [] [] none none none (some "bogus") none =
      .validationFailed 400 "Validation failed" :=
  sort_validation_feedback_only.1 [] [] none none none none "bogus" (by decide)

/-- The embedded `Math.ceil(total / limit)` agrees with the mathematical ceiling of
the rational quotient whenever the divisor is positive. -/
lemma jsCeilDiv_eq_ceil (a b : Nat) (hb : 0 < b) :
    jsCeilDiv a b = ⌈(a : ℚ) / (b : ℚ)⌉₊ := by
  rcases Nat.eq_zero_or_pos a with ha | ha
  · subst ha
    have h1 : jsCeilDiv 0 b = 0 := by
      simp only [jsCeilDiv, Nat.zero_add]
      exact Nat.div_eq_of_lt (by omega)
    simp [h1]
  · have hbQ : (0 : ℚ) < b := by exact_mod_cast hb
    have hmod := Nat.div_add_mod (a + b - 1) b
    set q := (a + b - 1) / b with hq
    set e := (a + b - 1) % b with he
    have heb : e < b := Nat.mod_lt _ hb
    have hq1 : 1 ≤ q := by
      rw [hq, Nat.le_div_iff_mul_le hb]
      omega
    have hbq : b * q = a + b - 1 - e := by omega
    have hup : a ≤ q * b := by
      rw [mul_comm]
      omega
    have hdown : (q - 1) * b < a := by
      rw [Nat.sub_mul, one_mul, mul_comm]
      omega
    have hne : jsCeilDiv a b ≠ 0 := by
      simp only [jsCeilDiv, ← hq]
      omega
    symm
    rw [Nat.ceil_eq_iff hne]
    have hcd : jsCeilDiv a b = q := rfl
    constructor
    · rw [hcd, lt_div_iff₀ hbQ]
      exact_mod_cast hdown
    · rw [hcd, div_le_iff₀ hbQ]
      exact_mod_cast hup

/-- Claim C5: every successful list response satisfies
`totalPages = ceil(totalCount / limit)` and carries at most `limit` items — for
the news list under a positive effective limit, and for every feedback list
response (where the validator enforces positivity). -/
theorem pagination_totalPages_ceil (matching : List Nat) (pq lq : Option Nat)
    (sq oq : Option String) (hl : 1 ≤ lq.getD 20) :
    ((newsListHandler matching pq lq sq oq).articles.length ≤ lq.getD 20 ∧
     (newsListHandler matching pq lq sq oq).pagination.totalPages =
       ⌈((newsListHandler matching pq lq sq oq).pagination.totalCount : ℚ) /
         (lq.getD 20 : ℚ)⌉₊) ∧
    (∀ (m ar : List Nat) (pq2 lq2 rq : Option Int) (sq2 oq2 : Option String)
      (s : Nat) (fb : List Nat) (pag : PaginationInfo) (dist : List (Nat × Nat)),
      feedbackListHandler m ar pq2 lq2 rq sq2 oq2 = .ok s fb pag dist →
      fb.length ≤ (lq2.getD 20).toNat ∧
      pag.totalPages =
        ⌈(pag.totalCount : ℚ) / ((lq2.getD 20).toNat : ℚ)⌉₊) := by
  constructor
  · constructor
    · simp only [newsListHandler]
      rw [List.length_take]
      exact min_le_left _ _
    · simp only [newsListHandler]
      exact jsCeilDiv_eq_ceil _ _ (by omega)
  · intro m ar pq2 lq2 rq sq2 oq2 s fb pag dist h
    simp only [feedbackListHandler] at h
    split at h
    · simp at h
    · rename_i hv
      rw [not_not] at hv
      have hlim : 1 ≤ (lq2.getD 20).toNat := by
        have : intRangeOk 1 100 lq2 = true := by
          simp only [feedbackListValid, Bool.and_eq_true] at hv
          exact hv.1.1.1.2
        cases lq2 with
        | none => simp
        | some n =>
          simp only [intRangeOk, Bool.and_eq_true, decide_eq_true_eq] at this
          simp only [Option.getD_some]
          omega
      injection h with hs1 hs2 hs3 hs4
      subst hs2
      subst hs3
      constructor
      · rw [List.length_take]
        exact min_le_left _ _
      · exact jsCeilDiv_eq_ceil _ _ (by omega)

/-- Witness for C5 at a concrete news query: 3 matching documents, limit 2, so two
pages and at most 2 items. -/
theorem pagination_totalPages_ceil_witness :
    (newsListHandler [4, 5, 6] (some 1) (some 2) none none).articles.length ≤
      (some 2 : Option Nat).getD 20 ∧
    (newsListHandler [4, 5, 6] (some 1) (some 2) none none).pagination.totalPages =
      ⌈((newsListHandler [4, 5, 6] (some 1) (some 2) none none).pagination.totalCount
          : ℚ) / ((some 2 : Option Nat).getD 20 : ℚ)⌉₊ :=
  (pagination_totalPages_ceil [4, 5, 6] (some 1) (some 2) none none (by decide)).1

/-- One rating step on an explicit dense histogram bumps exactly the bucket of the
(schema-valid) rating. -/
lemma ratingStep_dense (c1 c2 c3 c4 c5 r : Nat) (h1 : 1 ≤ r) (h5 : r ≤ 5) :
    ratingStep [(1, c1), (2, c2), (3, c3), (4, c4), (5, c5)] r =
      [(1, if r = 1 then c1 + 1 else c1), (2, if r = 2 then c2 + 1 else c2),
       (3, if r = 3 then c3 + 1 else c3), (4, if r = 4 then c4 + 1 else c4),
       (5, if r = 5 then c5 + 1 else c5)] := by
  interval_cases r <;> norm_num [ratingStep, bumpRating]

/-- The rating fold over an explicit dense histogram adds, bucket by bucket, the
number of occurrences of each rating, provided every rating is schema-valid
(1..5, as `src/models/Feedback.js` requires). -/
lemma ratingFold_eval (rs : List Nat) (c1 c2 c3 c4 c5 : Nat)
    (h : ∀ r ∈ rs, 1 ≤ r ∧ r ≤ 5) :
    rs.foldl ratingStep [(1, c1), (2, c2), (3, c3), (4, c4), (5, c5)] =
      [(1, c1 + rs.count 1), (2, c2 + rs.count 2), (3, c3 + rs.count 3),
       (4, c4 + rs.count 4), (5, c5 + rs.count 5)] := by
  induction rs generalizing c1 c2 c3 c4 c5 with
  | nil => simp
  | cons r rs ih =>
    have hrest : ∀ x ∈ rs, 1 ≤ x ∧ x ≤ 5 := fun x hx => h x (by simp [hx])
    have ih' := fun a b c d e => ih a b c d e hrest
    obtain ⟨hr1, hr5⟩ := h r (by simp)
    rw [List.foldl_cons, ratingStep_dense _ _ _ _ _ _ hr1 hr5, ih']
    interval_cases r <;>
      simp [List.count_cons, Prod.mk.injEq, List.cons.injEq] <;> omega

/-- Claim C6: the rating-histogram aggregation is dense — over zero feedback
entries it returns exactly `{1:0, 2:0, 3:0, 4:0, 5:0}`, and over any schema-valid
rating list it returns all five keys in order, each carrying the number of
observations of that rating (hence 0 when unobserved). -/
theorem ratingDistribution_dense :
    ratingDistribution [] = [(1, 0), (2, 0), (3, 0), (4, 0), (5, 0)] ∧
    (∀ rs : List Nat, (∀ r ∈ rs, 1 ≤ r ∧ r ≤ 5) →
      ratingDistribution rs =
        [(1, rs.count 1), (2, rs.count 2), (3, rs.count 3), (4, rs.count 4),
         (5, rs.count 5)]) := by
  constructor
  · rfl
  · intro rs h
    have := ratingFold_eval rs 0 0 0 0 0 h
    simpa [ratingDistribution, initialRatingDist] using this

/-- Witness for C6 at the concrete rating list `[3, 3, 5]`. -/
theorem ratingDistribution_dense_witness :
    ratingDistribution [3, 3, 5] =
      [(1, ([3, 3, 5] : List Nat).count 1), (2, ([3, 3, 5] : List Nat).count 2),
       (3, ([3, 3, 5] : List Nat).count 3), (4, ([3, 3, 5] : List Nat).count 4),
       (5, ([3, 3, 5] : List Nat).count 5)] :=
  ratingDistribution_dense.2 [3, 3, 5] (by decide)

/-- A login attempt against a locked admin or super-admin account answers 423 and
leaves the account record untouched, whatever the password. -/
lemma loginHandler_locked (now : Nat) (cand : String) (u : UserRec)
    (hrole : u.role = Role.admin ∨ u.role = Role.super_admin)
    (hlock : isLocked now u = true) :
    loginHandler now cand (some u) =
      { status := 423
        message := "Account is temporarily locked due to too many failed login attempts."
        postUser := some u } := by
  rcases hrole with h | h <;> simp [loginHandler, h, hlock]

/-- A failed login attempt against an unlocked, active admin account bumps the
counter via `incLoginAttempts`. -/
lemma loginStep_fail (now : Nat) (w : String) (u : UserRec)
    (hrole : u.role = Role.admin) (hstatus : u.status = Status.active)
    (hlocku : u.lockUntil = none) (hpw : comparePassword u w = false) :
    loginStep now w u = incLoginAttempts now u := by
  have hl : isLocked now u = false := by simp [isLocked, hlocku]
  simp [loginStep, loginHandler, hrole, hstatus, hl, hpw]

/-- Five consecutive failed attempts against a fresh active admin account leave it
with `loginAttempts = 5` and a lock expiring `lockDurationMs` after the attempts. -/
lemma five_strikes (now : Nat) (w : String) (u : UserRec)
    (hrole : u.role = Role.admin) (hstatus : u.status = Status.active)
    (h0 : u.loginAttempts = 0) (hl : u.lockUntil = none)
    (hpw : comparePassword u w = false) :
    afterAttempts now w 5 u =
      { u with loginAttempts := 5, lockUntil := some (now + lockDurationMs) } := by
  have s1 : loginStep now w u = { u with loginAttempts := 1 } := by
    rw [loginStep_fail now w u hrole hstatus hl hpw]
    simp [incLoginAttempts, hl, h0, lockThreshold]
  have s2 : loginStep now w { u with loginAttempts := 1 } =
      { u with loginAttempts := 2 } := by
    rw [loginStep_fail now w { u with loginAttempts := 1 } hrole hstatus hl hpw]
    simp [incLoginAttempts, hl, lockThreshold]
  have s3 : loginStep now w { u with loginAttempts := 2 } =
      { u with loginAttempts := 3 } := by
    rw [loginStep_fail now w { u with loginAttempts := 2 } hrole hstatus hl hpw]
    simp [incLoginAttempts, hl, lockThreshold]
  have s4 : loginStep now w { u with loginAttempts := 3 } =
      { u with loginAttempts := 4 } := by
    rw [loginStep_fail now w { u with loginAttempts := 3 } hrole hstatus hl hpw]
    simp [incLoginAttempts, hl, lockThreshold]
  have s5 : loginStep now w { u with loginAttempts := 4 } =
      { u with loginAttempts := 5, lockUntil := some (now + lockDurationMs) } := by
    rw [loginStep_fail now w { u with loginAttempts := 4 } hrole hstatus hl hpw]
    simp [incLoginAttempts, hl, lockThreshold]
  calc afterAttempts now w 5 u
      = afterAttempts now w 4 (loginStep now w u) := rfl
    _ = afterAttempts now w 4 { u with loginAttempts := 1 } := by rw [s1]
    _ = afterAttempts now w 3 (loginStep now w { u with loginAttempts := 1 }) := rfl
    _ = afterAttempts now w 3 { u with loginAttempts := 2 } := by rw [s2]
    _ = afterAttempts now w 2 (loginStep now w { u with loginAttempts := 2 }) := rfl
    _ = afterAttempts now w 2 { u with loginAttempts := 3 } := by rw [s3]
    _ = afterAttempts now w 1 (loginStep now w { u with loginAttempts := 3 }) := rfl
    _ = afterAttempts now w 1 { u with loginAttempts := 4 } := by rw [s4]
    _ = afterAttempts now w 0 (loginStep now w { u with loginAttempts := 4 }) := rfl
    _ = afterAttempts now w 0
          { u with loginAttempts := 5, lockUntil := some (now + lockDurationMs) } :=
        by rw [s5]
    _ = { u with loginAttempts := 5, lockUntil := some (now + lockDurationMs) } := rfl

/-- Claim C1, counterexample: the login route checks the role before the lock, so a
locked account whose role is `user` gets 403 — not 423 — even with the correct
password (its counter is still untouched, but the 423 part of the claim fails). -/
theorem login_locked_nonadmin_403 :
    isLocked 0 lockedRegularUser = true ∧
    comparePassword lockedRegularUser "secret1" = true ∧
    (loginHandler 0 "secret1" (some lockedRegularUser)).status = 403 ∧
    (loginHandler 0 "secret1" (some lockedRegularUser)).status ≠ 423 := by
  decide

/-- Claim C1 as amended: for every login request against an admin or super-admin
account whose lockout state is `Locked`, the attempt fails with 423 whatever the
password and the stored record — its failed-attempt counter included — is
unchanged; and after 5 consecutive failed attempts against a fresh active admin
account, the account is locked and a 6th attempt with the correct password fails
with 423. -/
theorem login_locked_admin_always_423 (now : Nat) (cand : String) (u : UserRec)
    (hrole : u.role = Role.admin ∨ u.role = Role.super_admin)
    (hlock : isLocked now u = true) :
    ((loginHandler now cand (some u)).status = 423 ∧
     (loginHandler now cand (some u)).postUser = some u) ∧
    (∀ (t : Nat) (good wrong : String) (v : UserRec),
      v.role = Role.admin → v.status = Status.active → v.loginAttempts = 0 →
      v.lockUntil = none → comparePassword v good = true →
      comparePassword v wrong = false →
      isLocked t (afterAttempts t wrong 5 v) = true ∧
      (loginHandler t good (some (afterAttempts t wrong 5 v))).status = 423) := by
  constructor
  · rw [loginHandler_locked now cand u hrole hlock]
    exact ⟨rfl, rfl⟩
  · intro t good wrong v hr hs h0 hlu hg hw
    have hfs := five_strikes t wrong v hr hs h0 hlu hw
    have hlocked : isLocked t (afterAttempts t wrong 5 v) = true := by
      rw [hfs]
      simp only [isLocked, decide_eq_true_eq, lockDurationMs]
      omega
    refine ⟨hlocked, ?_⟩
    have hrole6 : (afterAttempts t wrong 5 v).role = Role.admin := by
      rw [hfs]; exact hr
    rw [loginHandler_locked t good _ (Or.inl hrole6) hlocked]

/-- Witness for the amended C1 at a concrete locked admin account. -/
theorem login_locked_admin_always_423_witness :
    (loginHandler 0 "secret1" (some lockedAdmin)).status = 423 ∧
    (loginHandler 0 "secret1" (some lockedAdmin)).postUser = some lockedAdmin :=
  (login_locked_admin_always_423 0 "secret1" lockedAdmin (Or.inl rfl) (by decide)).1

end BackendCMS
